import Mathlib

/-!
# Verification of the trading bot core (strategy.py, indicators.py)

Shallow embedding of the `Strategy` class from `strategy.py` and of
`Indicators.calculate_vwap` from `indicators.py`.

Python floats are modelled as exact rationals (`ℚ`): every claim under
scrutiny is about order comparisons, `max`, additions and multiplications
of small decimal values, where IEEE doubles and rationals agree on the
behaviour of the control flow being verified.  Pandas element-wise float
division, which yields a non-crashing NaN/inf on a zero denominator
instead of raising, is modelled by `fdiv` returning `Option ℚ` with
`none` standing for that undefined float value.  The `ValueError` raised
by `calculate_vwap` on an unknown `price_type` string is modelled with
`Except String`.  Mutation of `self` is modelled by explicit state
passing: each method returns the updated `Strategy` record together with
its Python return value.
-/

/-- The `active_trade` dictionary built by `Strategy.execute_trade`:
keys `entry_price`, `stop_loss`, `take_profit`. -/
structure Trade where
  entry_price : ℚ
  stop_loss : ℚ
  take_profit : ℚ
deriving DecidableEq, Repr

/-- The mutable attributes of the Python `Strategy` object. -/
structure Strategy where
  atr_multiplier : ℚ
  daily_loss_limit : ℚ
  daily_loss : ℚ
  active_trade : Option Trade
deriving DecidableEq, Repr

/-- `Strategy(atr_multiplier=0.5, daily_loss_limit=400)` with its default
arguments: `daily_loss` starts at 0 and `active_trade` at `None`. -/
def defaultStrategy : Strategy :=
  { atr_multiplier := 1/2, daily_loss_limit := 400, daily_loss := 0, active_trade := none }

/-- The four string statuses returned by `Strategy.manage_trade`. -/
inductive TradeStatus where
  | NoActiveTrade
  | TakeProfitHit
  | StopLossHit
  | TradeActive
deriving DecidableEq, Repr

/-- The fields of the latest indicator row read by
`Strategy.check_trade_conditions`.  `close`, `VWAP`, `EMA_9`, `EMA_21`
are accessed unconditionally; `RVOL`, `ADX`, `IV_Rank` through
`latest.get(key, default)`, hence optional here. -/
structure LatestRow where
  close : ℚ
  VWAP : ℚ
  EMA_9 : ℚ
  EMA_21 : ℚ
  RVOL : Option ℚ
  ADX : Option ℚ
  IV_Rank : Option ℚ
deriving DecidableEq, Repr

/-- `Strategy.check_trade_conditions`: four boolean conditions are summed
(Python `sum` over a list of booleans) and the result is
`conditions_met >= 2 and iv_rank_ok`. -/
def Strategy.check_trade_conditions (latest : LatestRow) : Bool :=
  let price_above_vwap : Bool := latest.close > latest.VWAP
  let ema_crossover : Bool := latest.EMA_9 > latest.EMA_21
  let high_rvol : Bool := latest.RVOL.getD 1 ≥ 2
  let strong_trend : Bool := latest.ADX.getD 0 > 20
  let iv_rank_ok : Bool := latest.IV_Rank.getD 0 > 50
  let conditions_met : Nat :=
    List.countP id [price_above_vwap, ema_crossover, high_rvol, strong_trend]
  decide (conditions_met ≥ 2) && iv_rank_ok

/-- `Strategy.execute_trade(self, entry_price, atr)`: returns `None`
without touching the state when `self.daily_loss >= self.daily_loss_limit`;
otherwise stores and returns the fresh trade with
`stop_loss = entry_price - atr_multiplier*atr` and
`take_profit = entry_price + atr_multiplier*atr`. -/
def Strategy.execute_trade (s : Strategy) (entry_price atr : ℚ) :
    Strategy × Option Trade :=
  if s.daily_loss ≥ s.daily_loss_limit then
    (s, none)
  else
    let initial_sl := entry_price - s.atr_multiplier * atr
    let initial_tp := entry_price + s.atr_multiplier * atr
    let t : Trade :=
      { entry_price := entry_price, stop_loss := initial_sl, take_profit := initial_tp }
    ({ s with active_trade := some t }, some t)

/-- `Strategy.trail_sl_tp(self, trade_details, latest_price, atr)`:
when `latest_price > entry_price + atr_adjustment`, ratchets
`stop_loss` with `max` and resets `take_profit` to
`latest_price + atr_adjustment`; otherwise returns the dict unchanged. -/
def Strategy.trail_sl_tp (s : Strategy) (trade_details : Trade)
    (latest_price atr : ℚ) : Trade :=
  let atr_adjustment := s.atr_multiplier * atr
  if latest_price > trade_details.entry_price + atr_adjustment then
    { entry_price := trade_details.entry_price,
      stop_loss := max trade_details.stop_loss (latest_price - atr_adjustment),
      take_profit := latest_price + atr_adjustment }
  else
    trade_details

/-- `Strategy.manage_trade(self, latest_price, atr)`: trail first, then
check take-profit (`latest_price >= take_profit`), then stop-loss
(`latest_price <= stop_loss`, accumulating `abs(entry_price - latest_price)`
into `daily_loss`), else keep the (trailed) trade active. -/
def Strategy.manage_trade (s : Strategy) (latest_price atr : ℚ) :
    Strategy × TradeStatus :=
  match s.active_trade with
  | none => (s, TradeStatus.NoActiveTrade)
  | some t0 =>
    let t := s.trail_sl_tp t0 latest_price atr
    if latest_price ≥ t.take_profit then
      ({ s with active_trade := none }, TradeStatus.TakeProfitHit)
    else if latest_price ≤ t.stop_loss then
      let loss := t.entry_price - latest_price
      ({ s with daily_loss := s.daily_loss + |loss|, active_trade := none },
       TradeStatus.StopLossHit)
    else
      ({ s with active_trade := some t }, TradeStatus.TradeActive)

/-- Iterated trailing: fold `trail_sl_tp` over a sequence of
`(latest_price, atr)` observations, as a caller would across bars. -/
def Strategy.trail_seq (s : Strategy) (t : Trade) (moves : List (ℚ × ℚ)) : Trade :=
  moves.foldl (fun tr m => s.trail_sl_tp tr m.1 m.2) t

/-- One price/volume bar, the row shape consumed by `calculate_vwap`. -/
structure Bar where
  high : ℚ
  low : ℚ
  close : ℚ
  volume : ℚ
deriving DecidableEq, Repr

/-- Pandas element-wise float division as used in `calculate_vwap`:
a zero denominator produces a non-crashing undefined float (NaN or
±inf), modelled as `none`; otherwise the exact quotient. -/
def fdiv (a b : ℚ) : Option ℚ :=
  if b = 0 then none else some (a / b)

/-- `Series.cumsum()` with a running accumulator. -/
def cumsumFrom (acc : ℚ) : List ℚ → List ℚ
  | [] => []
  | x :: xs => (acc + x) :: cumsumFrom (acc + x) xs

/-- `Series.cumsum()`: running partial sums, same length as the input. -/
def cumsum (xs : List ℚ) : List ℚ := cumsumFrom 0 xs

/-- `Indicators.calculate_vwap(data, price_type)`: chooses the price
series (typical price `(high+low+close)/3` or close), raises
`ValueError` on any other `price_type`, and returns
`(price*volume).cumsum() / volume.cumsum()` element-wise. -/
def Indicators.calculate_vwap (data : List Bar) (price_type : String) :
    Except String (List (Option ℚ)) :=
  if price_type = "typical" then
    let price := data.map (fun b => (b.high + b.low + b.close) / 3)
    Except.ok (List.zipWith fdiv
      (cumsum (List.zipWith (fun p v => p * v) price (data.map Bar.volume)))
      (cumsum (data.map Bar.volume)))
  else if price_type = "close" then
    let price := data.map Bar.close
    Except.ok (List.zipWith fdiv
      (cumsum (List.zipWith (fun p v => p * v) price (data.map Bar.volume)))
      (cumsum (data.map Bar.volume)))
  else
    Except.error "Invalid price_type. Use typical or close."

/-! ## Helper lemmas -/

/-- `trail_sl_tp` never changes the `entry_price` field. -/
theorem trail_sl_tp_entry (s : Strategy) (t : Trade) (latest_price atr : ℚ) :
    (s.trail_sl_tp t latest_price atr).entry_price = t.entry_price := by
  simp only [Strategy.trail_sl_tp]
  split <;> rfl

/-- A single `trail_sl_tp` call never lowers `stop_loss`: the only write
is through `max` with the old value. -/
theorem trail_sl_tp_sl_le (s : Strategy) (t : Trade) (latest_price atr : ℚ) :
    t.stop_loss ≤ (s.trail_sl_tp t latest_price atr).stop_loss := by
  simp only [Strategy.trail_sl_tp]
  split
  · exact le_max_left _ _
  · exact le_rfl

/-- Across any sequence of trailing calls, `stop_loss` never decreases. -/
theorem trail_seq_sl_le (s : Strategy) (t : Trade) (moves : List (ℚ × ℚ)) :
    t.stop_loss ≤ (s.trail_seq t moves).stop_loss := by
  induction moves generalizing t with
  | nil => exact le_rfl
  | cons m ms ih =>
    simp only [Strategy.trail_seq, List.foldl_cons] at ih ⊢
    exact le_trans (trail_sl_tp_sl_le s t m.1 m.2) (ih _)

/-! ## Claim theorems -/

/-- The trade record that the spec says a successful `openTrade` creates:
`stopLoss = entryPrice - k*atr`, `takeProfit = entryPrice + k*atr` for the
configured multiplier `k`. -/
def specTrade (s : Strategy) (entry_price atr : ℚ) : Trade :=
  { entry_price := entry_price,
    stop_loss := entry_price - s.atr_multiplier * atr,
    take_profit := entry_price + s.atr_multiplier * atr }

/-- C1: `execute_trade` is a state-preserving no-op returning `None` when
`daily_loss >= daily_loss_limit`; otherwise it creates, stores and returns
the trade with `stop_loss = entry_price - k·atr`,
`take_profit = entry_price + k·atr` for the configured multiplier `k`
(default 1/2); in particular `entry_price=100, atr=10` yields
`stop_loss=95, take_profit=105`, and `daily_loss=400 = daily_loss_limit`
yields the no-op. -/
theorem execute_trade_spec (s : Strategy) (entry_price atr : ℚ) :
    (s.daily_loss ≥ s.daily_loss_limit →
      s.execute_trade entry_price atr = (s, none)) ∧
    (s.daily_loss < s.daily_loss_limit →
      s.execute_trade entry_price atr =
        ({ s with active_trade := some (specTrade s entry_price atr) },
         some (specTrade s entry_price atr))) ∧
    (defaultStrategy.execute_trade 100 10).2 =
      some ({ entry_price := 100, stop_loss := 95, take_profit := 105 } : Trade) ∧
    ({ defaultStrategy with daily_loss := 400 } : Strategy).execute_trade 50 5 =
      ({ defaultStrategy with daily_loss := 400 }, none) := by
  refine ⟨fun h => ?_, fun h => ?_, ?_, ?_⟩
  · simp only [Strategy.execute_trade]
    rw [if_pos h]
  · simp only [Strategy.execute_trade]
    rw [if_neg (not_le.mpr h)]
    rfl
  · norm_num [Strategy.execute_trade, defaultStrategy]
  · norm_num [Strategy.execute_trade, defaultStrategy]

/-- Witness for C1 at concrete inputs: the risk-limit branch at
`daily_loss = 400` and the creation branch at `entry_price=100, atr=10`. -/
theorem execute_trade_spec_witness :
    ({ defaultStrategy with daily_loss := 400 } : Strategy).execute_trade 50 5 =
      ({ defaultStrategy with daily_loss := 400 }, none) ∧
    (defaultStrategy.execute_trade 100 10).2 =
      some ({ entry_price := 100, stop_loss := 95, take_profit := 105 } : Trade) := by
  constructor
  · exact (execute_trade_spec { defaultStrategy with daily_loss := 400 } 50 5).1
      (by norm_num [defaultStrategy])
  · have h := (execute_trade_spec defaultStrategy 100 10).2.1
      (by norm_num [defaultStrategy])
    rw [h]
    norm_num [defaultStrategy, specTrade]

/-- C2: `trail_sl_tp` with adjustment `k·atr` ratchets
`stop_loss := max stop_loss (latest_price - adjustment)` and sets
`take_profit := latest_price + adjustment` when
`latest_price > entry_price + adjustment`, and leaves the trade unchanged
otherwise; `stop_loss` is non-decreasing across any sequence of trailing
calls; and from `{100, 95, 105}`, trailing at price 112 with atr 10 gives
`stop_loss = 107`, `take_profit = 117`. -/
theorem trail_sl_tp_spec (s : Strategy) (t : Trade) (latest_price atr : ℚ)
    (moves : List (ℚ × ℚ)) :
    (latest_price > t.entry_price + s.atr_multiplier * atr →
      s.trail_sl_tp t latest_price atr =
        { entry_price := t.entry_price,
          stop_loss := max t.stop_loss (latest_price - s.atr_multiplier * atr),
          take_profit := latest_price + s.atr_multiplier * atr }) ∧
    (¬ latest_price > t.entry_price + s.atr_multiplier * atr →
      s.trail_sl_tp t latest_price atr = t) ∧
    t.stop_loss ≤ (s.trail_seq t moves).stop_loss ∧
    defaultStrategy.trail_sl_tp ⟨100, 95, 105⟩ 112 10 = ⟨100, 107, 117⟩ := by
  refine ⟨fun h => ?_, fun h => ?_, trail_seq_sl_le s t moves, ?_⟩
  · simp only [Strategy.trail_sl_tp]
    rw [if_pos h]
  · simp only [Strategy.trail_sl_tp]
    rw [if_neg h]
  · norm_num [Strategy.trail_sl_tp, defaultStrategy]

/-- Witness for C2 at concrete inputs: the ratchet branch in Scenario B
and the unchanged branch at a non-favorable price. -/
theorem trail_sl_tp_spec_witness :
    defaultStrategy.trail_sl_tp ⟨100, 95, 105⟩ 112 10 =
      { entry_price := 100, stop_loss := max 95 107, take_profit := 117 } ∧
    defaultStrategy.trail_sl_tp ⟨100, 95, 105⟩ 101 10 = ⟨100, 95, 105⟩ := by
  constructor
  · have h := (trail_sl_tp_spec defaultStrategy ⟨100, 95, 105⟩ 112 10 []).1
      (by norm_num [defaultStrategy])
    rw [h]
    norm_num [defaultStrategy]
  · exact (trail_sl_tp_spec defaultStrategy ⟨100, 95, 105⟩ 101 10 []).2.1
      (by norm_num [defaultStrategy])

/-- Counterexample to C3 as stated: from the reachable trade
`{entry 100, stop 107, take 117}` (the Scenario B state), one trailing
call at `latest_price = 106`, `atr = 10` fires the ratchet branch
(106 > 100 + 5) and rewrites `take_profit` to `106 + 5 = 111 < 117`:
`take_profit` is lowered by a single trail call. -/
theorem trail_lowers_take_profit_cex :
    defaultStrategy.trail_sl_tp ⟨100, 107, 117⟩ 106 10 = ⟨100, 107, 111⟩ ∧
    ¬ ((⟨100, 107, 117⟩ : Trade).take_profit ≤
        (defaultStrategy.trail_sl_tp ⟨100, 107, 117⟩ 106 10).take_profit) := by
  constructor
  · norm_num [Strategy.trail_sl_tp, defaultStrategy]
  · norm_num [Strategy.trail_sl_tp, defaultStrategy]

/-- C3 (amended): a single `trail_sl_tp` call never lowers `stop_loss`;
`take_profit`, however, is not protected — whenever the ratchet branch
fires it is reset to `latest_price + adjustment`, which can be lower than
its previous value. -/
theorem trail_sl_never_lowered (s : Strategy) (t : Trade) (latest_price atr : ℚ) :
    t.stop_loss ≤ (s.trail_sl_tp t latest_price atr).stop_loss :=
  trail_sl_tp_sl_le s t latest_price atr

/-- C8: `trail_sl_tp` is idempotent for a fixed `(latest_price, atr)`
pair: a second application leaves the trade unchanged. -/
theorem trail_sl_tp_idempotent (s : Strategy) (t : Trade) (latest_price atr : ℚ) :
    s.trail_sl_tp (s.trail_sl_tp t latest_price atr) latest_price atr =
      s.trail_sl_tp t latest_price atr := by
  by_cases h : latest_price > t.entry_price + s.atr_multiplier * atr
  · simp [Strategy.trail_sl_tp, h, max_assoc]
  · simp [Strategy.trail_sl_tp, h]

/-- C4: after trailing, take-profit is checked before stop-loss, so a
price at or above the trailed `take_profit` exits as `TakeProfitHit`
even when the stop-loss condition holds simultaneously; `manage_trade`
always returns one of the four statuses; with no active trade it returns
`NoActiveTrade`; a price strictly between the trailed `stop_loss` and
`take_profit` keeps the (trailed) trade open with `TradeActive` — in
particular price 116 against `{100, 107, 117}` with atr 10. -/
theorem manage_trade_status_spec (s : Strategy) (t : Trade)
    (latest_price atr : ℚ) :
    (s.active_trade = some t →
      (latest_price ≥ (s.trail_sl_tp t latest_price atr).take_profit →
        s.manage_trade latest_price atr =
          ({ s with active_trade := none }, TradeStatus.TakeProfitHit)) ∧
      ((s.trail_sl_tp t latest_price atr).stop_loss < latest_price ∧
          latest_price < (s.trail_sl_tp t latest_price atr).take_profit →
        s.manage_trade latest_price atr =
          ({ s with active_trade := some (s.trail_sl_tp t latest_price atr) },
           TradeStatus.TradeActive))) ∧
    (s.active_trade = none →
      s.manage_trade latest_price atr = (s, TradeStatus.NoActiveTrade)) ∧
    ((s.manage_trade latest_price atr).2 = TradeStatus.NoActiveTrade ∨
     (s.manage_trade latest_price atr).2 = TradeStatus.TradeActive ∨
     (s.manage_trade latest_price atr).2 = TradeStatus.TakeProfitHit ∨
     (s.manage_trade latest_price atr).2 = TradeStatus.StopLossHit) ∧
    ({ defaultStrategy with active_trade := some ⟨100, 107, 117⟩ } : Strategy).manage_trade
        116 10 =
      ({ defaultStrategy with active_trade := some ⟨100, 111, 121⟩ },
       TradeStatus.TradeActive) := by
  refine ⟨fun hopen => ⟨fun htp => ?_, fun hbet => ?_⟩, fun hnone => ?_, ?_, ?_⟩
  · simp only [Strategy.manage_trade, hopen]
    rw [if_pos htp]
  · simp only [Strategy.manage_trade, hopen]
    rw [if_neg (not_le.mpr hbet.2), if_neg (not_le.mpr hbet.1)]
  · simp only [Strategy.manage_trade, hnone]
  · rcases hst : (s.manage_trade latest_price atr).2 with _ | _ | _ | _ <;> simp
  · norm_num [Strategy.manage_trade, Strategy.trail_sl_tp, defaultStrategy]

/-- Witness for C4 at concrete inputs: the tie-break (atr = 0 makes the
trailed stop and take coincide at the price, and the exit is
`TakeProfitHit`), Scenario C, and the no-trade case. -/
theorem manage_trade_status_spec_witness :
    ({ defaultStrategy with active_trade := some ⟨100, 95, 105⟩ } : Strategy).manage_trade
        101 0 =
      ({ defaultStrategy with active_trade := none }, TradeStatus.TakeProfitHit) ∧
    ({ defaultStrategy with active_trade := some ⟨100, 107, 117⟩ } : Strategy).manage_trade
        116 10 =
      ({ defaultStrategy with active_trade := some ⟨100, 111, 121⟩ },
       TradeStatus.TradeActive) ∧
    defaultStrategy.manage_trade 50 10 = (defaultStrategy, TradeStatus.NoActiveTrade) := by
  refine ⟨?_, ?_, ?_⟩
  · exact ((manage_trade_status_spec
        { defaultStrategy with active_trade := some ⟨100, 95, 105⟩ }
        ⟨100, 95, 105⟩ 101 0).1 rfl).1
      (by norm_num [Strategy.trail_sl_tp, defaultStrategy])
  · have h := ((manage_trade_status_spec
        { defaultStrategy with active_trade := some ⟨100, 107, 117⟩ }
        ⟨100, 107, 117⟩ 116 10).1 rfl).2
      (by constructor <;> norm_num [Strategy.trail_sl_tp, defaultStrategy])
    rw [h]
    norm_num [Strategy.trail_sl_tp, defaultStrategy]
  · exact (manage_trade_status_spec defaultStrategy ⟨0, 0, 0⟩ 50 10).2.1 rfl

/-- C5: on a stop-loss exit (trailed take-profit not reached and
`latest_price ≤` trailed `stop_loss`), `manage_trade` adds
`|entry_price - latest_price|` to `daily_loss`, clears the trade and
returns `StopLossHit`; on a take-profit exit it clears the trade and
leaves `daily_loss` unchanged; Scenario E: entry 100, stop 95, price 94
accumulates exactly 6. -/
theorem manage_trade_loss_accounting (s : Strategy) (t : Trade)
    (latest_price atr : ℚ) :
    (s.active_trade = some t →
      (latest_price < (s.trail_sl_tp t latest_price atr).take_profit →
        latest_price ≤ (s.trail_sl_tp t latest_price atr).stop_loss →
        s.manage_trade latest_price atr =
          ({ s with daily_loss := s.daily_loss + |t.entry_price - latest_price|,
                    active_trade := none },
           TradeStatus.StopLossHit)) ∧
      (latest_price ≥ (s.trail_sl_tp t latest_price atr).take_profit →
        (s.manage_trade latest_price atr).1.daily_loss = s.daily_loss ∧
        (s.manage_trade latest_price atr).1.active_trade = none ∧
        (s.manage_trade latest_price atr).2 = TradeStatus.TakeProfitHit)) ∧
    ({ defaultStrategy with active_trade := some ⟨100, 95, 105⟩ } : Strategy).manage_trade
        94 10 =
      ({ defaultStrategy with daily_loss := 6, active_trade := none },
       TradeStatus.StopLossHit) := by
  refine ⟨fun hopen => ⟨fun htp hsl => ?_, fun htp => ?_⟩, ?_⟩
  · simp only [Strategy.manage_trade, hopen]
    rw [if_neg (not_le.mpr htp), if_pos hsl, trail_sl_tp_entry]
  · simp only [Strategy.manage_trade, hopen]
    rw [if_pos htp]
    exact ⟨rfl, rfl, rfl⟩
  · norm_num [Strategy.manage_trade, Strategy.trail_sl_tp, defaultStrategy]

/-- Witness for C5 at concrete inputs: Scenario E for the stop-loss
branch and a take-profit exit leaving `daily_loss` untouched. -/
theorem manage_trade_loss_accounting_witness :
    ({ defaultStrategy with active_trade := some ⟨100, 95, 105⟩ } : Strategy).manage_trade
        94 10 =
      ({ defaultStrategy with daily_loss := 0 + |(100 : ℚ) - 94|, active_trade := none },
       TradeStatus.StopLossHit) ∧
    (({ defaultStrategy with active_trade := some ⟨100, 95, 105⟩ } : Strategy).manage_trade
        105 10).1.daily_loss = (0 : ℚ) := by
  constructor
  · exact ((manage_trade_loss_accounting
        { defaultStrategy with active_trade := some ⟨100, 95, 105⟩ }
        ⟨100, 95, 105⟩ 94 10).1 rfl).1
      (by norm_num [Strategy.trail_sl_tp, defaultStrategy])
      (by norm_num [Strategy.trail_sl_tp, defaultStrategy])
  · exact (((manage_trade_loss_accounting
        { defaultStrategy with active_trade := some ⟨100, 95, 105⟩ }
        ⟨100, 95, 105⟩ 105 10).1 rfl).2
      (by norm_num [Strategy.trail_sl_tp, defaultStrategy])).1

/-- C6: `check_trade_conditions` returns `true` iff at least 2 of the four
conditions — close above VWAP, EMA_9 above EMA_21, RVOL (default 1) at
least 2, ADX (default 0) above 20 — hold and IV_Rank (default 0) strictly
exceeds 50; whenever IV_Rank ≤ 50 the result is `false` regardless of the
vote count.  (The function reads the row and mutates nothing: it is a pure
`Bool`-valued function of the row.) -/
theorem check_trade_conditions_spec (latest : LatestRow) :
    (Strategy.check_trade_conditions latest = true ↔
      2 ≤ List.countP id
          [decide (latest.close > latest.VWAP),
           decide (latest.EMA_9 > latest.EMA_21),
           decide (latest.RVOL.getD 1 ≥ 2),
           decide (latest.ADX.getD 0 > 20)] ∧
      latest.IV_Rank.getD 0 > 50) ∧
    (latest.IV_Rank.getD 0 ≤ 50 →
      Strategy.check_trade_conditions latest = false) := by
  constructor
  · simp [Strategy.check_trade_conditions]
  · intro h
    simp [Strategy.check_trade_conditions, not_lt.mpr h]

/-- Witness for C6: a row with exactly the VWAP and EMA votes and
IV_Rank 60 enters, and the same row with IV_Rank 40 is vetoed by the
IV-Rank gate alone. -/
theorem check_trade_conditions_spec_witness :
    Strategy.check_trade_conditions
      { close := 10, VWAP := 9, EMA_9 := 5, EMA_21 := 4,
        RVOL := some 1, ADX := some 10, IV_Rank := some 60 } = true ∧
    Strategy.check_trade_conditions
      { close := 10, VWAP := 9, EMA_9 := 5, EMA_21 := 4,
        RVOL := some 1, ADX := some 10, IV_Rank := some 40 } = false := by
  constructor
  · exact (check_trade_conditions_spec
      { close := 10, VWAP := 9, EMA_9 := 5, EMA_21 := 4,
        RVOL := some 1, ADX := some 10, IV_Rank := some 60 }).1.mpr
      (by norm_num)
  · exact (check_trade_conditions_spec
      { close := 10, VWAP := 9, EMA_9 := 5, EMA_21 := 4,
        RVOL := some 1, ADX := some 10, IV_Rank := some 40 }).2
      (by norm_num)

/-- Counterexample to C7 as stated: with `atr = 0` (accepted — the code
validates nothing about `atr`), the created trade has
`stop_loss = entry_price = take_profit`, so the strict invariant
`stopLoss < entryPrice < takeProfit` fails at creation. -/
theorem execute_trade_invariant_cex :
    defaultStrategy.daily_loss < defaultStrategy.daily_loss_limit ∧
    (defaultStrategy.execute_trade 100 0).2 = some ⟨100, 100, 100⟩ ∧
    ¬ ((100 : ℚ) < 100) := by
  refine ⟨by norm_num [defaultStrategy], ?_, by norm_num⟩
  norm_num [Strategy.execute_trade, defaultStrategy]

/-- C7 (amended): whenever the trailing distance `atr_multiplier * atr`
is strictly positive, every trade accepted by `execute_trade` under the
risk limit satisfies `stop_loss < entry_price < take_profit` at
creation.  (The code accepts `atr = 0`, for which the three coincide.) -/
theorem execute_trade_creation_invariant (s : Strategy) (entry_price atr : ℚ)
    (hrisk : s.daily_loss < s.daily_loss_limit)
    (hadj : 0 < s.atr_multiplier * atr) :
    ∀ t, (s.execute_trade entry_price atr).2 = some t →
      t.stop_loss < t.entry_price ∧ t.entry_price < t.take_profit := by
  intro t ht
  simp only [Strategy.execute_trade] at ht
  rw [if_neg (not_le.mpr hrisk)] at ht
  simp only [Option.some.injEq] at ht
  subst ht
  constructor <;> simp <;> linarith

/-- Witness for C7 (amended) at `entry_price = 100`, `atr = 10` under the
default configuration. -/
theorem execute_trade_creation_invariant_witness :
    (95 : ℚ) < 100 ∧ (100 : ℚ) < 105 := by
  have h := execute_trade_creation_invariant defaultStrategy 100 10
    (by norm_num [defaultStrategy]) (by norm_num [defaultStrategy])
    ⟨100, 95, 105⟩ (by norm_num [Strategy.execute_trade, defaultStrategy])
  simpa using h

/-! ## List lemmas for the VWAP claim -/

theorem cumsumFrom_length (acc : ℚ) (xs : List ℚ) :
    (cumsumFrom acc xs).length = xs.length := by
  induction xs generalizing acc with
  | nil => rfl
  | cons x xs ih => simp [cumsumFrom, ih]

theorem cumsum_length (xs : List ℚ) : (cumsum xs).length = xs.length :=
  cumsumFrom_length 0 xs

theorem zipWith_get?_both {α β γ : Type} (f : α → β → γ) (as : List α)
    (bs : List β) (i : Nat) (a : α) (b : β)
    (ha : as.get? i = some a) (hb : bs.get? i = some b) :
    (List.zipWith f as bs).get? i = some (f a b) := by
  induction as generalizing bs i with
  | nil => simp at ha
  | cons x xs ih =>
    cases bs with
    | nil => simp at hb
    | cons y ys =>
      cases i with
      | zero =>
        simp only [List.get?] at ha hb
        cases ha
        cases hb
        rfl
      | succ n =>
        simp only [List.get?] at ha hb
        simpa [List.zipWith] using ih ys n ha hb

/-- C9: when the cumulative volume at some index is zero, `calculate_vwap`
in its default `typical` mode still returns normally (the pandas division
does not raise) and the VWAP at that index is the defined no-volume
sentinel (`none`, standing for the non-crashing NaN/inf float), resolved
locally in the element-wise division. -/
theorem calculate_vwap_zero_volume_sentinel (data : List Bar) (i : Nat)
    (hvol : (cumsum (data.map Bar.volume)).get? i = some 0) :
    ∃ out, Indicators.calculate_vwap data "typical" = Except.ok out ∧
      out.get? i = some none := by
  refine ⟨List.zipWith fdiv
      (cumsum (List.zipWith (fun p v => p * v)
        (data.map fun b => (b.high + b.low + b.close) / 3) (data.map Bar.volume)))
      (cumsum (data.map Bar.volume)), ?_, ?_⟩
  · simp only [Indicators.calculate_vwap, if_true, reduceIte]
  · have hi : i < (cumsum (data.map Bar.volume)).length := by
      by_contra hge
      rw [List.get?_eq_none.mpr (le_of_not_lt hge)] at hvol
      exact Option.noConfusion hvol
    have hlen : (cumsum (List.zipWith (fun p v => p * v)
        (data.map fun b => (b.high + b.low + b.close) / 3)
        (data.map Bar.volume))).length = (cumsum (data.map Bar.volume)).length := by
      simp [cumsum_length, List.length_zipWith]
    obtain ⟨n, hn⟩ : ∃ n, (cumsum (List.zipWith (fun p v => p * v)
        (data.map fun b => (b.high + b.low + b.close) / 3)
        (data.map Bar.volume))).get? i = some n := by
      cases hn : (cumsum (List.zipWith (fun p v => p * v)
          (data.map fun b => (b.high + b.low + b.close) / 3)
          (data.map Bar.volume))).get? i with
      | none =>
        rw [List.get?_eq_none] at hn
        omega
      | some n => exact ⟨n, rfl⟩
    rw [zipWith_get?_both fdiv _ _ i n 0 hn hvol]
    simp [fdiv]

/-- Witness for C9: a single bar with zero volume — cumulative volume 0 at
index 0 — yields the sentinel, not a crash. -/
theorem calculate_vwap_zero_volume_sentinel_witness :
    ∃ out, Indicators.calculate_vwap [⟨1, 1, 1, 0⟩] "typical" = Except.ok out ∧
      out.get? 0 = some none :=
  calculate_vwap_zero_volume_sentinel [⟨1, 1, 1, 0⟩] 0 (by simp [cumsum, cumsumFrom])

/-- C10: `execute_trade` never checks `active_trade`: from a state that
already holds an open trade and is under the daily loss limit, it does not
reject — it silently overwrites the stored trade with a fresh one computed
from the new arguments and returns it. -/
theorem execute_trade_replaces_open_trade (s : Strategy) (t : Trade)
    (entry_price atr : ℚ)
    (hopen : s.active_trade = some t)
    (hrisk : s.daily_loss < s.daily_loss_limit) :
    s.execute_trade entry_price atr =
      ({ s with active_trade := some (specTrade s entry_price atr) },
       some (specTrade s entry_price atr)) := by
  simp only [Strategy.execute_trade]
  rw [if_neg (not_le.mpr hrisk)]
  rfl

/-- Witness for C10: a state holding the Scenario A trade accepts a new
`execute_trade` call and replaces the stored trade. -/
theorem execute_trade_replaces_open_trade_witness :
    ({ defaultStrategy with active_trade := some ⟨100, 95, 105⟩ } : Strategy).execute_trade
        200 10 =
      ({ defaultStrategy with active_trade := some ⟨200, 195, 205⟩ },
       some ⟨200, 195, 205⟩) := by
  have h := execute_trade_replaces_open_trade
    { defaultStrategy with active_trade := some ⟨100, 95, 105⟩ }
    ⟨100, 95, 105⟩ 200 10 rfl (by norm_num [defaultStrategy])
  rw [h]
  norm_num [specTrade, defaultStrategy]
